import Mathlib

/-!
Shallow embedding of the Blender scene-buildup add-on
(`src/blender_scene_buildup/__init__.py`).

Frames are integers, float-valued properties are modelled as exact
rationals, and the light-placement calculator (which takes Euclidean
distances) is modelled over the reals.  The host's animation storage is
modelled as an explicit heap of actions (lists of f-curves) referenced by
objects, with keyframe insertion/removal as pure functions on that heap.
-/

namespace SceneBuildup

/-- Rational 3-vector, modelling `mathutils.Vector` values. -/
abbrev Vec3 := ℚ × ℚ × ℚ

/-- Componentwise vector addition (`Vector + Vector`). -/
def vadd (a b : Vec3) : Vec3 := (a.1 + b.1, a.2.1 + b.2.1, a.2.2 + b.2.2)

/-- The `effect_type` EnumProperty items. -/
inductive EffectType
  | growFromFloor
  | growOvershoot
  | fallDown
  | noEffect
deriving DecidableEq, Repr

/-- The `light_color_temp` EnumProperty items. -/
inductive ColorTemp
  | warm
  | neutral
  | cool
deriving DecidableEq, Repr

/-- Per-object configuration: the `SceneBuildupProperties` PropertyGroup. -/
structure Props where
  effectType : EffectType
  enabled : Bool
  startFrame : ℤ
  duration : ℤ
  floorOffset : ℚ
  overshootAmount : ℚ
  overshootSettleRatio : ℚ
  fallHeight : ℚ
  lightOffset : ℚ
  lightIntensity : ℚ
  lightColorTemp : ColorTemp
deriving DecidableEq, Repr

/-- Declared defaults of `SceneBuildupProperties`
(effect NONE, disabled, start 0, duration 15, floor -0.05, overshoot 0.15,
settle 0.2, fall 0.5, light offset 0.01, intensity 100, warm). -/
def defaultProps : Props where
  effectType := .noEffect
  enabled := false
  startFrame := 0
  duration := 15
  floorOffset := -1/20
  overshootAmount := 3/20
  overshootSettleRatio := 1/5
  fallHeight := 1/2
  lightOffset := 1/100
  lightIntensity := 100
  lightColorTemp := .warm

/-- Animated channels of the keyframe plan: `location` index 2,
`location` (all three components), `scale`, `hide_viewport`, `hide_render`. -/
inductive Channel
  | positionZ
  | position3
  | scale3
  | hideViewport
  | hideRender
deriving DecidableEq, Repr

/-- Keyframe interpolation kinds used by the add-on. -/
inductive Interp
  | bezier
  | constant
deriving DecidableEq, Repr

/-- Value carried by a keyframe plan entry. -/
inductive KeyValue
  | num (q : ℚ)
  | vec (v : Vec3)
  | flag (b : Bool)
deriving DecidableEq, Repr

/-- One keyframe plan entry: (frame, channel, value, interpolation). -/
structure KeyframeEntry where
  frame : ℤ
  channel : Channel
  value : KeyValue
  interp : Interp
deriving DecidableEq, Repr

/-- Interpolation a fresh `keyframe_insert` keyframe gets (the Blender
factory default); the add-on then overwrites location/scale keyframes
with an explicit BEZIER pass. -/
def insertInterp : Interp := .bezier

/-- Rest state captured before mutation: `obj.location` / `obj.scale`. -/
structure RestState where
  position : Vec3
  scale : Vec3
deriving DecidableEq, Repr

/-- A 3x3 matrix over the rationals, modelling
`parent.matrix_world.to_3x3()`. -/
structure Mat3 where
  a11 : ℚ
  a12 : ℚ
  a13 : ℚ
  a21 : ℚ
  a22 : ℚ
  a23 : ℚ
  a31 : ℚ
  a32 : ℚ
  a33 : ℚ
deriving DecidableEq, Repr

/-- Identity matrix. -/
def Mat3.id : Mat3 := ⟨1, 0, 0, 0, 1, 0, 0, 0, 1⟩

/-- Determinant of a 3x3 matrix. -/
def Mat3.det (m : Mat3) : ℚ :=
  m.a11 * (m.a22 * m.a33 - m.a23 * m.a32)
    - m.a12 * (m.a21 * m.a33 - m.a23 * m.a31)
    + m.a13 * (m.a21 * m.a32 - m.a22 * m.a31)

/-- Matrix inverse via the adjugate, modelling `Matrix.inverted()`. -/
def Mat3.inv (m : Mat3) : Mat3 where
  a11 := (m.a22 * m.a33 - m.a23 * m.a32) / m.det
  a12 := (m.a13 * m.a32 - m.a12 * m.a33) / m.det
  a13 := (m.a12 * m.a23 - m.a13 * m.a22) / m.det
  a21 := (m.a23 * m.a31 - m.a21 * m.a33) / m.det
  a22 := (m.a11 * m.a33 - m.a13 * m.a31) / m.det
  a23 := (m.a13 * m.a21 - m.a11 * m.a23) / m.det
  a31 := (m.a21 * m.a32 - m.a22 * m.a31) / m.det
  a32 := (m.a12 * m.a31 - m.a11 * m.a32) / m.det
  a33 := (m.a11 * m.a22 - m.a12 * m.a21) / m.det

/-- Matrix-vector product (`Matrix @ Vector`). -/
def Mat3.mulVec (m : Mat3) (v : Vec3) : Vec3 :=
  (m.a11 * v.1 + m.a12 * v.2.1 + m.a13 * v.2.2,
   m.a21 * v.1 + m.a22 * v.2.1 + m.a23 * v.2.2,
   m.a31 * v.1 + m.a32 * v.2.1 + m.a33 * v.2.2)

/-- `world_fall = mathutils.Vector((0, 0, fall_height))`. -/
def worldFall (h : ℚ) : Vec3 := (0, 0, h)

/-- `local_fall`: if the object has a parent, apply the inverse of the
parent's world 3x3 matrix to the world-space fall vector, else use it
unchanged. -/
def localFall (parentRot3 : Option Mat3) (h : ℚ) : Vec3 :=
  match parentRot3 with
  | some m => m.inv.mulVec (worldFall h)
  | none => worldFall h

/-- The hide/show keyframes emitted at the head of every effect branch:
hidden at `start_frame - 1` when `start_frame > 0`, visible at
`start_frame`, on both `hide_viewport` and `hide_render`. -/
def visibilityPre (s : ℤ) : List KeyframeEntry :=
  (if 0 < s then
    [⟨s - 1, .hideViewport, .flag true, insertInterp⟩,
     ⟨s - 1, .hideRender, .flag true, insertInterp⟩]
  else []) ++
  [⟨s, .hideViewport, .flag false, insertInterp⟩,
   ⟨s, .hideRender, .flag false, insertInterp⟩]

/-- `settle_frames = max(1, int(duration * overshoot_settle_ratio))`;
`int()` truncation coincides with the floor for these non-negative
inputs. -/
def settleFrames (p : Props) : ℤ :=
  max 1 ⌊(p.duration : ℚ) * p.overshootSettleRatio⌋

/-- `overshoot_frame = end_frame - settle_frames`. -/
def overshootFrame (p : Props) : ℤ :=
  p.startFrame + p.duration - settleFrames p

/-- `overshoot_scale = tuple(s * (1.0 + overshoot_amount) for s in
original_scale)`. -/
def overshootScale (p : Props) (rest : RestState) : Vec3 :=
  (rest.scale.1 * (1 + p.overshootAmount),
   rest.scale.2.1 * (1 + p.overshootAmount),
   rest.scale.2.2 * (1 + p.overshootAmount))

/-- The `keyframe_insert` calls of `_apply_animation_to_object`, in
emission order, before the interpolation pass. -/
def buildPlanRaw (p : Props) (rest : RestState) (parentRot3 : Option Mat3) :
    List KeyframeEntry :=
  let s := p.startFrame
  let e := p.startFrame + p.duration
  match p.effectType with
  | .growFromFloor =>
      visibilityPre s ++
      [⟨s, .positionZ, .num p.floorOffset, insertInterp⟩,
       ⟨s, .scale3, .vec (0, 0, 0), insertInterp⟩,
       ⟨e, .positionZ, .num rest.position.2.2, insertInterp⟩,
       ⟨e, .scale3, .vec rest.scale, insertInterp⟩]
  | .growOvershoot =>
      visibilityPre s ++
      [⟨s, .positionZ, .num p.floorOffset, insertInterp⟩,
       ⟨s, .scale3, .vec (0, 0, 0), insertInterp⟩,
       ⟨overshootFrame p, .positionZ, .num rest.position.2.2, insertInterp⟩,
       ⟨overshootFrame p, .scale3, .vec (overshootScale p rest), insertInterp⟩,
       ⟨e, .positionZ, .num rest.position.2.2, insertInterp⟩,
       ⟨e, .scale3, .vec rest.scale, insertInterp⟩]
  | .fallDown =>
      visibilityPre s ++
      [⟨s, .position3, .vec (vadd rest.position (localFall parentRot3 p.fallHeight)),
        insertInterp⟩,
       ⟨e, .position3, .vec rest.position, insertInterp⟩]
  | .noEffect => []

/-- The per-branch pass that sets every `location` (and, for the grow
effects, `scale`) keyframe to BEZIER interpolation. -/
def bezierMark (alsoScale : Bool) (plan : List KeyframeEntry) :
    List KeyframeEntry :=
  plan.map fun en =>
    if en.channel = .positionZ ∨ en.channel = .position3 ∨
        (alsoScale = true ∧ en.channel = .scale3) then
      { en with interp := .bezier }
    else en

/-- The finished keyframe plan of one apply invocation on one object:
raw emission followed by the branch's BEZIER pass (the FALL_DOWN branch
only touches `location` curves). -/
def buildPlan (p : Props) (rest : RestState) (parentRot3 : Option Mat3) :
    List KeyframeEntry :=
  match p.effectType with
  | .fallDown => bezierMark false (buildPlanRaw p rest parentRot3)
  | .noEffect => []
  | _ => bezierMark true (buildPlanRaw p rest parentRot3)

/-- `_hide_child_lights_during_animation` for one light child: hidden at
`start_frame - 1` (when positive), `start_frame` and `end_frame - 1`,
visible at `end_frame`, on both hide channels, in emission order. -/
def hideChildLightPlan (s e : ℤ) : List KeyframeEntry :=
  (if 0 < s then
    [⟨s - 1, .hideViewport, .flag true, insertInterp⟩,
     ⟨s - 1, .hideRender, .flag true, insertInterp⟩]
  else []) ++
  [⟨s, .hideViewport, .flag true, insertInterp⟩,
   ⟨s, .hideRender, .flag true, insertInterp⟩,
   ⟨e - 1, .hideViewport, .flag true, insertInterp⟩,
   ⟨e - 1, .hideRender, .flag true, insertInterp⟩,
   ⟨e, .hideViewport, .flag false, insertInterp⟩,
   ⟨e, .hideRender, .flag false, insertInterp⟩]

/-- A parameter record exercising the GROW_OVERSHOOT timing at the
boundary `duration = 1` (valid per the property ranges). -/
def c2Params : Props :=
  { defaultProps with
    effectType := .growOvershoot, enabled := true,
    startFrame := 0, duration := 1, overshootSettleRatio := 1/5 }

/-! ## State model: actions, f-curves, objects, scene

The host's animation storage: each action is a list of f-curves; actions
live in a heap keyed by ids; objects reference an action through
`animation_data.action`.  Child objects are tracked with the fields the
claims observe (type, hide flags, presence of animation data); their own
keyframe schedules are covered by the plan-level `hideChildLightPlan`.
-/

/-- `fcurve.data_path` values touched by the add-on. -/
inductive DataPath
  | location
  | scale
  | hideViewport
  | hideRender
deriving DecidableEq, Repr

/-- One keyframe point of an f-curve (booleans stored as 0/1 floats). -/
structure Keyframe where
  frame : ℤ
  value : ℚ
  interp : Interp
deriving DecidableEq, Repr

/-- One f-curve: a `(data_path, array_index)` channel with its keyframe
points, kept sorted by frame. -/
structure FCurve where
  dataPath : DataPath
  arrayIndex : ℤ
  keyframes : List Keyframe
deriving DecidableEq, Repr

/-- The keyframe-removal pass run before every apply: drop every f-curve
with `data_path == "location" and array_index == 2` and every f-curve
with `data_path == "scale"`; all other f-curves are kept. -/
def removeForApply (cs : List FCurve) : List FCurve :=
  cs.filter fun c =>
    ¬ ((c.dataPath = .location ∧ c.arrayIndex = 2) ∨ c.dataPath = .scale)

/-- Insert (or overwrite) a keyframe point at a frame, keeping the list
sorted; a fresh point gets the insertion-default interpolation. -/
def putKeyframe (ks : List Keyframe) (f : ℤ) (v : ℚ) : List Keyframe :=
  match ks with
  | [] => [⟨f, v, insertInterp⟩]
  | k :: rest =>
    if f < k.frame then ⟨f, v, insertInterp⟩ :: k :: rest
    else if f = k.frame then ⟨f, v, k.interp⟩ :: rest
    else k :: putKeyframe rest f v

/-- `keyframe_insert` on a single `(data_path, array_index)` channel:
reuse the existing f-curve or append a new one. -/
def keyframeInsertOne (cs : List FCurve) (p : DataPath) (i : ℤ) (f : ℤ)
    (v : ℚ) : List FCurve :=
  if cs.any fun c => c.dataPath = p ∧ c.arrayIndex = i then
    cs.map fun c =>
      if c.dataPath = p ∧ c.arrayIndex = i then
        { c with keyframes := putKeyframe c.keyframes f v }
      else c
  else cs ++ [⟨p, i, [⟨f, v, insertInterp⟩]⟩]

/-- `keyframe_insert` on a vector property without an index: one keyframe
per component, indices 0, 1, 2. -/
def keyframeInsertVec (cs : List FCurve) (p : DataPath) (f : ℤ) (v : Vec3) :
    List FCurve :=
  keyframeInsertOne
    (keyframeInsertOne (keyframeInsertOne cs p 0 f v.1) p 1 f v.2.1)
    p 2 f v.2.2

/-- Replay one plan entry against the f-curve collection. -/
def applyEntryToCurves (cs : List FCurve) (en : KeyframeEntry) :
    List FCurve :=
  match en.channel, en.value with
  | .positionZ, .num q => keyframeInsertOne cs .location 2 en.frame q
  | .position3, .vec v => keyframeInsertVec cs .location en.frame v
  | .scale3, .vec v => keyframeInsertVec cs .scale en.frame v
  | .hideViewport, .flag b =>
      keyframeInsertOne cs .hideViewport 0 en.frame (if b then 1 else 0)
  | .hideRender, .flag b =>
      keyframeInsertOne cs .hideRender 0 en.frame (if b then 1 else 0)
  | _, _ => cs

/-- The post-hoc interpolation pass over the action: every keyframe of a
`location` f-curve (and of a `scale` f-curve, for the grow effects) is
set to BEZIER. -/
def bezierPassCurves (alsoScale : Bool) (cs : List FCurve) : List FCurve :=
  cs.map fun c =>
    if c.dataPath = .location ∨ (alsoScale = true ∧ c.dataPath = .scale) then
      { c with keyframes := c.keyframes.map fun k => { k with interp := .bezier } }
    else c

/-- Object kinds distinguished by the add-on. -/
inductive ObjKind
  | light
  | other
deriving DecidableEq, Repr

/-- A child object, as observed by the claims. -/
structure Child where
  kind : ObjKind
  hideViewport : Bool
  hideRender : Bool
  hasAnimData : Bool
deriving DecidableEq, Repr

/-- A scene object: transform, hide flags, configuration, optional parent
orientation, animation data (presence flag plus referenced action id),
and its children. -/
structure Obj where
  location : Vec3
  scale : Vec3
  hideViewport : Bool
  hideRender : Bool
  props : Props
  parentRot3 : Option Mat3
  hasAnimData : Bool
  actionId : Option Nat
  children : List Child
deriving DecidableEq, Repr

/-- The scene: action heap (id-keyed association list), fresh-id counter,
and the object list (an object's handle is its index). -/
structure Scene where
  actions : List (Nat × List FCurve)
  nextId : Nat
  objects : List Obj
deriving DecidableEq, Repr

/-- F-curves of an action id (empty when absent). -/
def getFc (sc : Scene) (a : Nat) : List FCurve :=
  (((sc.actions.find? fun e => e.1 = a).map fun e => e.2)).getD []

/-- Whether an action id is present in the heap. -/
def hasAction (sc : Scene) (a : Nat) : Bool :=
  (sc.actions.find? fun e => e.1 = a).isSome

/-- Overwrite the f-curves of an action id. -/
def setFc (sc : Scene) (a : Nat) (fc : List FCurve) : Scene :=
  { sc with actions := sc.actions.map fun e => if e.1 = a then (e.1, fc) else e }

/-- `action.users` for an action id: the number of objects referencing
it. -/
def usersCount (sc : Scene) (a : Nat) : Nat :=
  (sc.objects.filter fun o => o.actionId = some a).length

/-- Phase 1 of `_apply_animation_to_object` (the guard before keyframe
removal): when the object's action is shared (`action.users > 1`), give
the object its own copy of the action. -/
def sharePhase (sc : Scene) (i : Nat) : Scene :=
  match sc.objects[i]? with
  | none => sc
  | some o =>
    if o.hasAnimData then
      match o.actionId with
      | some a =>
        if 1 < usersCount sc a then
          { sc with
            actions := (sc.nextId, getFc sc a) :: sc.actions,
            nextId := sc.nextId + 1,
            objects := sc.objects.set i { o with actionId := some sc.nextId } }
        else sc
      | none => sc
    else sc

/-- Phase 2: remove the existing `location.z` and `scale` keyframes from
the object's (now exclusive) action. -/
def clearPhase (sc : Scene) (i : Nat) : Scene :=
  match sc.objects[i]? with
  | none => sc
  | some o =>
    if o.hasAnimData then
      match o.actionId with
      | some a => setFc sc a (removeForApply (getFc sc a))
      | none => sc
    else sc

/-- `_hide_child_lights_during_animation` as seen by the object state:
every light child ends up with animation data, both hide flags false. -/
def applyChildren (cl : List Child) : List Child :=
  cl.map fun c =>
    if c.kind = .light then
      { c with hasAnimData := true, hideViewport := false, hideRender := false }
    else c

/-- Replay the effect branch's keyframe inserts and interpolation pass on
the action `a` of object `i`, then record the final object fields (hide
flags shown, transform restored to rest, children hidden/shown). -/
def writePlanPhase (sc : Scene) (i : Nat) (a : Nat) : Scene :=
  match sc.objects[i]? with
  | none => sc
  | some o =>
    let plan := buildPlanRaw o.props ⟨o.location, o.scale⟩ o.parentRot3
    let fc := plan.foldl applyEntryToCurves (getFc sc a)
    let fc2 :=
      if o.props.effectType = .fallDown then bezierPassCurves false fc
      else bezierPassCurves true fc
    let sc2 := setFc sc a fc2
    { sc2 with
      objects := sc2.objects.set i
        { o with
          hideViewport := false, hideRender := false,
          children := applyChildren o.children } }

/-- Phase 3: the effect branch.  NONE only restores the rest transform
(identity here, since the rest state is the current state); the other
effects insert their keyframes, creating animation data and an action
when the object has none. -/
def effectPhase (sc : Scene) (i : Nat) : Scene :=
  match sc.objects[i]? with
  | none => sc
  | some o =>
    if o.props.effectType = .noEffect then sc
    else
      match o.actionId with
      | some a => writePlanPhase sc i a
      | none =>
        let sc2 :=
          { sc with
            actions := (sc.nextId, []) :: sc.actions,
            nextId := sc.nextId + 1,
            objects := sc.objects.set i
              { o with hasAnimData := true, actionId := some sc.nextId } }
        writePlanPhase sc2 i sc.nextId

/-- `_apply_animation_to_object` for object `i`: exclusive-action guard,
keyframe removal, then the effect branch. -/
def applyToObject (sc : Scene) (i : Nat) : Scene :=
  effectPhase (clearPhase (sharePhase sc i) i) i

/-- The field-by-field copy of the animation settings from the active
object onto a selected object (the light-tool settings are not copied). -/
def copyProps (src dst : Props) : Props :=
  { dst with
    enabled := src.enabled, effectType := src.effectType,
    startFrame := src.startFrame, duration := src.duration,
    floorOffset := src.floorOffset, fallHeight := src.fallHeight,
    overshootAmount := src.overshootAmount,
    overshootSettleRatio := src.overshootSettleRatio }

/-- One iteration of the apply loop: copy the active object's settings
onto object `i`, then apply the animation to it. -/
def applyStep (aprops : Props) (sc : Scene) (i : Nat) : Scene :=
  match sc.objects[i]? with
  | none => sc
  | some o =>
    applyToObject
      { sc with objects := sc.objects.set i { o with props := copyProps aprops o.props } } i

/-- Outcome of `SCENEBUILD_OT_ApplyAnimation.execute`. -/
inductive ApplyResult
  | notEnabled
  | applied (count : Nat)
deriving DecidableEq, Repr

/-- `SCENEBUILD_OT_ApplyAnimation.execute`: read the active object's
settings; if animation is not enabled there, warn and cancel without
touching anything; otherwise copy the settings onto every selected
object and apply. -/
def executeApply (sc : Scene) (active : Nat) (sel : List Nat) :
    ApplyResult × Scene :=
  match sc.objects[active]? with
  | none => (.notEnabled, sc)
  | some ao =>
    if ao.props.enabled then
      (.applied sel.length, sel.foldl (applyStep ao.props) sc)
    else (.notEnabled, sc)

/-- `SCENEBUILD_OT_ClearAnimation` on one child: light children with
animation data lose it and are made visible in viewport and render. -/
def clearChild (c : Child) : Child :=
  if c.kind = .light ∧ c.hasAnimData = true then
    { c with hasAnimData := false, hideViewport := false, hideRender := false }
  else c

/-- `SCENEBUILD_OT_ClearAnimation` on one object: drop its animation
data, clear the light children, and reset `enabled` and `effect_type`
(only those two fields are written back). -/
def clearObject (o : Obj) : Obj :=
  { o with
    hasAnimData := false, actionId := none,
    children := o.children.map clearChild,
    props := { o.props with enabled := false, effectType := .noEffect } }

/-- Map a function over exactly the selected indices of the object list,
starting the index count at `i0`. -/
def mapSelected (sel : List Nat) (f : Obj → Obj) :
    Nat → List Obj → List Obj
  | _, [] => []
  | i0, o :: rest =>
      (if i0 ∈ sel then f o else o) :: mapSelected sel f (i0 + 1) rest

/-- Number of selected objects carrying animation data (the operator's
`cleared_count`), starting the index count at `i0`. -/
def countCleared (sel : List Nat) : Nat → List Obj → Nat
  | _, [] => 0
  | i0, o :: rest =>
      (if i0 ∈ sel ∧ o.hasAnimData = true then 1 else 0) +
        countCleared sel (i0 + 1) rest

/-- Outcome of `SCENEBUILD_OT_ClearAnimation.execute`: the operation
always finishes; with nothing cleared it reports the non-fatal
"No animation data found" warning. -/
structure ClearResult where
  clearedCount : Nat
  warnedNoAnimation : Bool
deriving DecidableEq, Repr

/-- `SCENEBUILD_OT_ClearAnimation.execute` over the selection. -/
def executeClear (sc : Scene) (sel : List Nat) : ClearResult × Scene :=
  let n := countCleared sel 0 sc.objects
  (⟨n, n = 0⟩,
   { sc with objects := mapSelected sel clearObject 0 sc.objects })

/-! ## Light placement calculator

`SCENEBUILD_OT_AddLightToLamp.execute` works with Euclidean distances,
so this part of the embedding lives over the reals. -/

/-- Real 3-vector for the light tool's world-space geometry. -/
abbrev Vec3R := ℝ × ℝ × ℝ

/-- Euclidean length (`Vector.length`). -/
noncomputable def vlen (v : Vec3R) : ℝ :=
  Real.sqrt (v.1 ^ 2 + v.2.1 ^ 2 + v.2.2 ^ 2)

/-- Componentwise vector difference. -/
noncomputable def vsubR (a b : Vec3R) : Vec3R :=
  (a.1 - b.1, a.2.1 - b.2.1, a.2.2 - b.2.2)

/-- Minimum over a nonempty collection, head plus rest. -/
noncomputable def foldMin (x : ℝ) (xs : List ℝ) : ℝ := xs.foldl min x

/-- Maximum over a nonempty collection, head plus rest. -/
noncomputable def foldMax (x : ℝ) (xs : List ℝ) : ℝ := xs.foldl max x

/-- Axis-aligned bounding-box midpoint of the nonempty point set
`p0 :: ps`, per the per-axis min/max midpoint computation of the
operator. -/
noncomputable def bboxCenter (p0 : Vec3R) (ps : List Vec3R) : Vec3R :=
  ((foldMin p0.1 (ps.map fun p => p.1) + foldMax p0.1 (ps.map fun p => p.1)) / 2,
   (foldMin p0.2.1 (ps.map fun p => p.2.1) + foldMax p0.2.1 (ps.map fun p => p.2.1)) / 2,
   (foldMin p0.2.2 (ps.map fun p => p.2.2) + foldMax p0.2.2 (ps.map fun p => p.2.2)) / 2)

/-- `avg_radius = sum((co - center).length for co in coords) / len(coords)`. -/
noncomputable def avgRadius (p0 : Vec3R) (ps : List Vec3R) : ℝ :=
  (((p0 :: ps).map fun p => vlen (vsubR p (bboxCenter p0 ps))).foldl (· + ·) 0) /
    ((p0 :: ps).length : ℝ)

/-- The POINT branch of the add-light operator: light placed at the
bounding-box center, `shadow_soft_size = max(avg_radius, 0.1)`. -/
noncomputable def pointLightSpec (p0 : Vec3R) (ps : List Vec3R) : Vec3R × ℝ :=
  (bboxCenter p0 ps, max (avgRadius p0 ps) (1 / 10))

/-! ## Concrete fixtures used by counterexamples and witnesses -/

/-- GROW_FROM_FLOOR parameters: start 10, duration 15. -/
def c1Params : Props :=
  { defaultProps with
    effectType := .growFromFloor, enabled := true,
    startFrame := 10, duration := 15 }

/-- A rest state: position (0, 0, 2), unit scale. -/
def c1Rest : RestState := ⟨(0, 0, 2), (1, 1, 1)⟩

/-- GROW_OVERSHOOT parameters away from the degenerate boundary:
start 5, duration 10, settle ratio 0.2. -/
def c2WitnessParams : Props :=
  { defaultProps with
    effectType := .growOvershoot, enabled := true,
    startFrame := 5, duration := 10, overshootSettleRatio := 1/5 }

/-- FALL_DOWN parameters: start 10, duration 15, fall height 1. -/
def c3Params : Props :=
  { defaultProps with
    effectType := .fallDown, enabled := true,
    startFrame := 10, duration := 15, fallHeight := 1 }

/-- A rest state for the fall effect: position (1, 2, 3), unit scale. -/
def c3Rest : RestState := ⟨(1, 2, 3), (1, 1, 1)⟩

/-- A scene whose single object already has a keyframe on the f-curve of
`location` index 0 (the X component of an earlier full-location plan)
and a GROW_FROM_FLOOR configuration about to be applied. -/
def c4Scene : Scene where
  actions := [(0, [⟨.location, 0, [⟨5, 7, .bezier⟩]⟩])]
  nextId := 1
  objects :=
    [{ location := (0, 0, 2), scale := (1, 1, 1),
       hideViewport := false, hideRender := false,
       props := { defaultProps with
         enabled := true, effectType := .growFromFloor,
         startFrame := 10, duration := 15, floorOffset := -1 },
       parentRot3 := Option.none,
       hasAnimData := true, actionId := some 0, children := [] }]

/-- An object referencing action 0, used twice in the shared-action
scene. -/
def c5Obj : Obj where
  location := (0, 0, 0)
  scale := (1, 1, 1)
  hideViewport := false
  hideRender := false
  props := { defaultProps with
    enabled := true, effectType := .growFromFloor,
    startFrame := 2, duration := 5, floorOffset := -1 }
  parentRot3 := Option.none
  hasAnimData := true
  actionId := some 0
  children := []

/-- Two objects share action 0, so `action.users == 2`. -/
def c5Scene : Scene where
  actions := [(0, [⟨.scale, 0, [⟨1, 1, .bezier⟩]⟩])]
  nextId := 1
  objects := [c5Obj, c5Obj]

/-- An object whose configuration has `enabled = False`. -/
def c6Obj : Obj where
  location := (0, 0, 0)
  scale := (1, 1, 1)
  hideViewport := false
  hideRender := false
  props := { defaultProps with enabled := false, effectType := .growFromFloor }
  parentRot3 := Option.none
  hasAnimData := false
  actionId := Option.none
  children := []

/-- A scene whose active object is not enabled for animation. -/
def c6Scene : Scene where
  actions := []
  nextId := 0
  objects := [c6Obj]

/-- A hidden light child carrying animation data. -/
def c8Child : Child where
  kind := .light
  hideViewport := true
  hideRender := true
  hasAnimData := true

/-- An animated object with non-default timing fields
(start 50, duration 40) and a hidden light child. -/
def c8Obj : Obj where
  location := (1, 2, 3)
  scale := (1, 1, 1)
  hideViewport := false
  hideRender := false
  props := { defaultProps with
    enabled := true, effectType := .growFromFloor,
    startFrame := 50, duration := 40, floorOffset := -1 }
  parentRot3 := Option.none
  hasAnimData := true
  actionId := some 0
  children := [c8Child]

/-- Scene holding the animated object above. -/
def c8Scene : Scene where
  actions := [(0, [⟨.location, 2, [⟨50, -1, .bezier⟩]⟩])]
  nextId := 1
  objects := [c8Obj]

/-- The same object with no animation data anywhere (nothing to clear). -/
def c8ObjNoAnim : Obj :=
  { c8Obj with hasAnimData := false, actionId := Option.none, children := [] }

/-- Scene with nothing to clear. -/
def c8SceneNoAnim : Scene where
  actions := []
  nextId := 0
  objects := [c8ObjNoAnim]

/-- A hidden light child with animation data, for the clear-visibility
witness. -/
def c10Child : Child where
  kind := .light
  hideViewport := true
  hideRender := true
  hasAnimData := true

/-- Parent of the hidden light child. -/
def c10Obj : Obj where
  location := (0, 0, 0)
  scale := (1, 1, 1)
  hideViewport := false
  hideRender := false
  props := { defaultProps with enabled := true, effectType := .fallDown }
  parentRot3 := Option.none
  hasAnimData := true
  actionId := some 0
  children := [c10Child]

/-- Scene holding the parent and its hidden light child. -/
def c10Scene : Scene where
  actions := [(0, [])]
  nextId := 1
  objects := [c10Obj]

/-! ## Helper lemmas about the heap and the object list -/

theorem find?_key_map_set (l : List (Nat × List FCurve)) (a b : Nat)
    (fc : List FCurve) (h : a ≠ b) :
    ((l.map fun e => if e.1 = b then (e.1, fc) else e).find? fun e => e.1 = a) =
      l.find? fun e => e.1 = a := by
  induction l with
  | nil => rfl
  | cons e rest ih =>
    simp only [List.map_cons]
    by_cases hb : e.1 = b
    · have hna : e.1 ≠ a := by rw [hb]; exact Ne.symm h
      rw [if_pos hb, List.find?_cons_of_neg _ (by simpa using hna),
        List.find?_cons_of_neg _ (by simpa using hna), ih]
    · by_cases hea : e.1 = a
      · rw [if_neg hb, List.find?_cons_of_pos _ (by simpa using hea),
          List.find?_cons_of_pos _ (by simpa using hea)]
      · rw [if_neg hb, List.find?_cons_of_neg _ (by simpa using hea),
          List.find?_cons_of_neg _ (by simpa using hea), ih]

theorem getFc_setFc_ne (sc : Scene) (a b : Nat) (fc : List FCurve)
    (h : a ≠ b) :
    getFc (setFc sc b fc) a = getFc sc a := by
  simp [getFc, setFc, find?_key_map_set _ _ _ _ h]

theorem setFc_objects (sc : Scene) (b : Nat) (fc : List FCurve) :
    (setFc sc b fc).objects = sc.objects := rfl

theorem writePlanPhase_getFc_ne (sc : Scene) (i b a : Nat) (h : a ≠ b) :
    getFc (writePlanPhase sc i b) a = getFc sc a := by
  unfold writePlanPhase
  cases hg : sc.objects[i]? with
  | none => rfl
  | some o =>
    simp [getFc_setFc_ne _ _ _ _ h, getFc, setFc, find?_key_map_set _ _ _ _ h]

theorem writePlanPhase_objects_ne (sc : Scene) (i b j : Nat) (h : i ≠ j) :
    (writePlanPhase sc i b).objects[j]? = sc.objects[j]? := by
  unfold writePlanPhase
  cases hg : sc.objects[i]? with
  | none => rfl
  | some o => simp [setFc, List.getElem?_set_ne h]

theorem writePlanPhase_actionId (sc : Scene) (i b : Nat) :
    ((writePlanPhase sc i b).objects[i]?).map (fun o => o.actionId) =
      (sc.objects[i]?).map (fun o => o.actionId) := by
  unfold writePlanPhase
  cases hg : sc.objects[i]? with
  | none => simp [hg]
  | some o =>
    have hlen : i < sc.objects.length := (List.getElem?_eq_some.mp hg).1
    simp [hg, setFc, List.getElem?_set_self hlen]

theorem mapSelected_getElem? (sel : List Nat) (f : Obj → Obj) :
    ∀ (l : List Obj) (i0 j : Nat),
      (mapSelected sel f i0 l)[j]? =
        (l[j]?).map (fun o => if i0 + j ∈ sel then f o else o) := by
  intro l
  induction l with
  | nil => intro i0 j; simp [mapSelected]
  | cons o rest ih =>
    intro i0 j
    cases j with
    | zero => simp [mapSelected]
    | succ j2 =>
      simp only [mapSelected, List.getElem?_cons_succ, ih (i0 + 1) j2]
      have harith : i0 + 1 + j2 = i0 + (j2 + 1) := by omega
      rw [harith]

/-! ## Claim theorems -/

/-- C1: for every valid GROW_FROM_FLOOR parameter set (duration ≥ 1,
start frame ≥ 0), the built plan has a visibility-off entry at
`startFrame - 1` and a visibility-on entry at `startFrame` when
`startFrame > 0`; `position.z = floorOffset` and scale `(0,0,0)` at
`startFrame`; `position.z = rest.position.z` and scale `rest.scale` at
`endFrame = startFrame + duration`; and every position/scale entry uses
Bezier interpolation. -/
theorem growFromFloor_plan_spec (p : Props) (rest : RestState)
    (par : Option Mat3) (heff : p.effectType = .growFromFloor)
    (hd : 1 ≤ p.duration) (hs : 0 ≤ p.startFrame) :
    (0 < p.startFrame →
      (⟨p.startFrame - 1, .hideViewport, .flag true, insertInterp⟩ ∈ buildPlan p rest par ∧
       ⟨p.startFrame - 1, .hideRender, .flag true, insertInterp⟩ ∈ buildPlan p rest par)) ∧
    (⟨p.startFrame, .hideViewport, .flag false, insertInterp⟩ ∈ buildPlan p rest par ∧
     ⟨p.startFrame, .hideRender, .flag false, insertInterp⟩ ∈ buildPlan p rest par) ∧
    ⟨p.startFrame, .positionZ, .num p.floorOffset, .bezier⟩ ∈ buildPlan p rest par ∧
    ⟨p.startFrame, .scale3, .vec (0, 0, 0), .bezier⟩ ∈ buildPlan p rest par ∧
    ⟨p.startFrame + p.duration, .positionZ, .num rest.position.2.2, .bezier⟩ ∈
      buildPlan p rest par ∧
    ⟨p.startFrame + p.duration, .scale3, .vec rest.scale, .bezier⟩ ∈ buildPlan p rest par ∧
    (∀ en ∈ buildPlan p rest par,
      (en.channel = .positionZ ∨ en.channel = .position3 ∨ en.channel = .scale3) →
      en.interp = .bezier) := by
  by_cases h0 : 0 < p.startFrame <;>
    simp [buildPlan, heff, buildPlanRaw, visibilityPre, bezierMark, h0, insertInterp]

/-- C1 witness: the theorem applied to concrete parameters
(start 10, duration 15, rest z 2, unit scale, no parent). -/
theorem growFromFloor_plan_spec_witness :
    (c1Params.effectType = .growFromFloor ∧
      1 ≤ c1Params.duration ∧ 0 ≤ c1Params.startFrame) ∧
    ((0 < c1Params.startFrame →
      (⟨c1Params.startFrame - 1, .hideViewport, .flag true, insertInterp⟩ ∈
          buildPlan c1Params c1Rest Option.none ∧
       ⟨c1Params.startFrame - 1, .hideRender, .flag true, insertInterp⟩ ∈
          buildPlan c1Params c1Rest Option.none)) ∧
    (⟨c1Params.startFrame, .hideViewport, .flag false, insertInterp⟩ ∈
        buildPlan c1Params c1Rest Option.none ∧
     ⟨c1Params.startFrame, .hideRender, .flag false, insertInterp⟩ ∈
        buildPlan c1Params c1Rest Option.none) ∧
    ⟨c1Params.startFrame, .positionZ, .num c1Params.floorOffset, .bezier⟩ ∈
      buildPlan c1Params c1Rest Option.none ∧
    ⟨c1Params.startFrame, .scale3, .vec (0, 0, 0), .bezier⟩ ∈
      buildPlan c1Params c1Rest Option.none ∧
    ⟨c1Params.startFrame + c1Params.duration, .positionZ,
      .num c1Rest.position.2.2, .bezier⟩ ∈ buildPlan c1Params c1Rest Option.none ∧
    ⟨c1Params.startFrame + c1Params.duration, .scale3, .vec c1Rest.scale, .bezier⟩ ∈
      buildPlan c1Params c1Rest Option.none ∧
    (∀ en ∈ buildPlan c1Params c1Rest Option.none,
      (en.channel = .positionZ ∨ en.channel = .position3 ∨ en.channel = .scale3) →
      en.interp = .bezier)) :=
  ⟨⟨rfl, by decide, by decide⟩,
   growFromFloor_plan_spec c1Params c1Rest Option.none rfl (by decide) (by decide)⟩

/-- C2 counterexample: with the valid parameters `startFrame = 0`,
`duration = 1`, `overshootSettleRatio = 0.2`, the code's overshoot frame
equals the start frame, so `startFrame < overshootFrame` fails — the
implementation has no clamping step. -/
theorem growOvershoot_strict_counterexample :
    c2Params.effectType = .growOvershoot ∧
    1 ≤ c2Params.duration ∧ 0 ≤ c2Params.startFrame ∧
    (1/20 : ℚ) ≤ c2Params.overshootSettleRatio ∧
    c2Params.overshootSettleRatio ≤ (1/2 : ℚ) ∧
    overshootFrame c2Params = c2Params.startFrame ∧
    ¬ (c2Params.startFrame < overshootFrame c2Params) := by
  refine ⟨rfl, by norm_num [c2Params, defaultProps],
    by norm_num [c2Params, defaultProps], by norm_num [c2Params, defaultProps],
    by norm_num [c2Params, defaultProps], ?_, ?_⟩ <;>
    norm_num [overshootFrame, settleFrames, c2Params, defaultProps]

/-- C2 (amended): for valid GROW_OVERSHOOT parameters the overshoot
frame `endFrame - max(1, floor(duration * settleRatio))` always
satisfies `startFrame ≤ overshootFrame < endFrame`; the left inequality
is strict whenever `duration ≥ 2`, while for `duration = 1` the
overshoot frame collapses onto the start frame (the code performs no
clamping).  The scale keyframed at the overshoot frame is
`rest.scale * (1 + overshootAmount)` componentwise. -/
theorem growOvershoot_amended (p : Props) (rest : RestState)
    (par : Option Mat3) (heff : p.effectType = .growOvershoot)
    (hd : 1 ≤ p.duration) (hs : 0 ≤ p.startFrame)
    (hr1 : (1/20 : ℚ) ≤ p.overshootSettleRatio)
    (hr2 : p.overshootSettleRatio ≤ (1/2 : ℚ)) :
    p.startFrame ≤ overshootFrame p ∧
    overshootFrame p < p.startFrame + p.duration ∧
    (2 ≤ p.duration → p.startFrame < overshootFrame p) ∧
    (p.duration = 1 → overshootFrame p = p.startFrame) ∧
    ⟨overshootFrame p, .scale3, .vec (overshootScale p rest), .bezier⟩ ∈
      buildPlan p rest par := by
  have hdq : (1 : ℚ) ≤ (p.duration : ℚ) := by exact_mod_cast hd
  have hflt : ⌊(p.duration : ℚ) * p.overshootSettleRatio⌋ < p.duration := by
    rw [Int.floor_lt]
    nlinarith
  have h1 : 1 ≤ settleFrames p := le_max_left _ _
  have h2 : settleFrames p ≤ p.duration := by
    apply max_le hd
    omega
  refine ⟨by unfold overshootFrame; omega, by unfold overshootFrame; omega, ?_, ?_, ?_⟩
  · intro h2d
    have h3 : settleFrames p ≤ p.duration - 1 := by
      apply max_le (by omega)
      omega
    unfold overshootFrame
    omega
  · intro hd1
    have hfl0 : ⌊(p.duration : ℚ) * p.overshootSettleRatio⌋ = 0 := by
      rw [Int.floor_eq_zero_iff]
      constructor
      · rw [hd1]; push_cast; nlinarith
      · rw [hd1]; push_cast; nlinarith
    unfold overshootFrame settleFrames
    rw [hfl0]
    omega
  · by_cases h0 : 0 < p.startFrame <;>
      simp [buildPlan, heff, buildPlanRaw, visibilityPre, bezierMark, h0]

/-- C2 witness: the amended theorem applied at start 5, duration 10,
settle ratio 0.2 (overshoot frame 13, strictly between 5 and 15). -/
theorem growOvershoot_amended_witness :
    (c2WitnessParams.effectType = .growOvershoot ∧
      1 ≤ c2WitnessParams.duration ∧ 0 ≤ c2WitnessParams.startFrame ∧
      (1/20 : ℚ) ≤ c2WitnessParams.overshootSettleRatio ∧
      c2WitnessParams.overshootSettleRatio ≤ (1/2 : ℚ)) ∧
    (c2WitnessParams.startFrame ≤ overshootFrame c2WitnessParams ∧
     overshootFrame c2WitnessParams < c2WitnessParams.startFrame + c2WitnessParams.duration ∧
     (2 ≤ c2WitnessParams.duration →
       c2WitnessParams.startFrame < overshootFrame c2WitnessParams) ∧
     (c2WitnessParams.duration = 1 →
       overshootFrame c2WitnessParams = c2WitnessParams.startFrame) ∧
     ⟨overshootFrame c2WitnessParams, .scale3,
       .vec (overshootScale c2WitnessParams c1Rest), .bezier⟩ ∈
       buildPlan c2WitnessParams c1Rest Option.none) :=
  ⟨⟨rfl, by decide, by decide,
      by norm_num [c2WitnessParams, defaultProps],
      by norm_num [c2WitnessParams, defaultProps]⟩,
   growOvershoot_amended c2WitnessParams c1Rest Option.none rfl (by decide)
     (by decide) (by norm_num [c2WitnessParams, defaultProps])
     (by norm_num [c2WitnessParams, defaultProps])⟩

/-- C3: for every valid FALL_DOWN parameter set, the world fall vector
is `(0, 0, fallHeight)`; with a parent the local fall vector is the
parent matrix's inverse applied to it (so for an identity parent the two
coincide), without a parent they are equal; the plan keyframes the full
3-component position `rest.position + localFall` at `startFrame` and
`rest.position` at `endFrame` with Bezier interpolation; and no scale
entry ever appears in the plan. -/
theorem fallDown_plan_spec (p : Props) (rest : RestState) (par : Option Mat3)
    (heff : p.effectType = .fallDown)
    (hd : 1 ≤ p.duration) (hs : 0 ≤ p.startFrame) :
    worldFall p.fallHeight = (0, 0, p.fallHeight) ∧
    (∀ m : Mat3, localFall (some m) p.fallHeight =
      m.inv.mulVec (worldFall p.fallHeight)) ∧
    localFall Option.none p.fallHeight = worldFall p.fallHeight ∧
    localFall (some Mat3.id) p.fallHeight = worldFall p.fallHeight ∧
    ⟨p.startFrame, .position3,
      .vec (vadd rest.position (localFall par p.fallHeight)), .bezier⟩ ∈
      buildPlan p rest par ∧
    ⟨p.startFrame + p.duration, .position3, .vec rest.position, .bezier⟩ ∈
      buildPlan p rest par ∧
    (∀ en ∈ buildPlan p rest par, en.channel ≠ .scale3) := by
  refine ⟨rfl, fun m => rfl, rfl, ?_, ?_, ?_, ?_⟩
  · simp [localFall, worldFall, Mat3.id, Mat3.inv, Mat3.det, Mat3.mulVec]
  · by_cases h0 : 0 < p.startFrame <;>
      simp [buildPlan, heff, buildPlanRaw, visibilityPre, bezierMark, h0]
  · by_cases h0 : 0 < p.startFrame <;>
      simp [buildPlan, heff, buildPlanRaw, visibilityPre, bezierMark, h0]
  · by_cases h0 : 0 < p.startFrame <;>
      simp [buildPlan, heff, buildPlanRaw, visibilityPre, bezierMark, h0, insertInterp]

/-- C3 witness: the theorem applied at start 10, duration 15, fall
height 1, with an identity-matrix parent. -/
theorem fallDown_plan_spec_witness :
    (c3Params.effectType = .fallDown ∧
      1 ≤ c3Params.duration ∧ 0 ≤ c3Params.startFrame) ∧
    (worldFall c3Params.fallHeight = (0, 0, c3Params.fallHeight) ∧
    (∀ m : Mat3, localFall (some m) c3Params.fallHeight =
      m.inv.mulVec (worldFall c3Params.fallHeight)) ∧
    localFall Option.none c3Params.fallHeight = worldFall c3Params.fallHeight ∧
    localFall (some Mat3.id) c3Params.fallHeight = worldFall c3Params.fallHeight ∧
    ⟨c3Params.startFrame, .position3,
      .vec (vadd c3Rest.position (localFall (some Mat3.id) c3Params.fallHeight)),
      .bezier⟩ ∈ buildPlan c3Params c3Rest (some Mat3.id) ∧
    ⟨c3Params.startFrame + c3Params.duration, .position3, .vec c3Rest.position,
      .bezier⟩ ∈ buildPlan c3Params c3Rest (some Mat3.id) ∧
    (∀ en ∈ buildPlan c3Params c3Rest (some Mat3.id), en.channel ≠ .scale3)) :=
  ⟨⟨rfl, by decide, by decide⟩,
   fallDown_plan_spec c3Params c3Rest (some Mat3.id) rfl (by decide) (by decide)⟩

/-- C4 counterexample: applying a GROW_FROM_FLOOR plan to an object
whose action already holds a keyframe on the f-curve of `location`
index 0 (the X component written by a prior full-location plan) leaves
that prior keyframe in place, coexisting with the freshly inserted
`location` index 2 keyframes — the removal pass does not touch it. -/
theorem apply_removal_counterexample :
    (⟨.location, 0, [⟨5, 7, .bezier⟩]⟩ : FCurve) ∈ getFc c4Scene 0 ∧
    (⟨.location, 0, [⟨5, 7, .bezier⟩]⟩ : FCurve) ∈ getFc (applyToObject c4Scene 0) 0 ∧
    (⟨.location, 2, [⟨10, -1, .bezier⟩, ⟨25, 2, .bezier⟩]⟩ : FCurve) ∈
      getFc (applyToObject c4Scene 0) 0 := by
  decide

/-- C4 (amended): the pre-apply removal pass removes exactly the
f-curves of `location` index 2 (the PositionZ channel) and of `scale`
(the Scale3 channel); every other f-curve — in particular the
`location` index 0/1 curves holding the X/Y components of a prior
Position3 plan — is kept unchanged. -/
theorem apply_removal_amended (cs : List FCurve) (c : FCurve) :
    c ∈ removeForApply cs ↔
      c ∈ cs ∧
        ¬ ((c.dataPath = .location ∧ c.arrayIndex = 2) ∨ c.dataPath = .scale) := by
  simp [removeForApply, List.mem_filter]
  tauto

/-- C5: when the object's action is referenced by more than one user,
the apply operation duplicates the action before any keyframe removal
or insertion, so the original action's keyframe data and every other
object are left unchanged, and the object ends up pointing at the fresh
copy. -/
theorem apply_shared_action_isolated (sc : Scene) (i : Nat) (o : Obj)
    (a : Nat) (ho : sc.objects[i]? = some o)
    (hd : o.hasAnimData = true)
    (ha : o.actionId = some a)
    (hu : 1 < usersCount sc a)
    (hfresh : a < sc.nextId) :
    getFc (applyToObject sc i) a = getFc sc a ∧
    (∀ j, j ≠ i → (applyToObject sc i).objects[j]? = sc.objects[j]?) ∧
    ((applyToObject sc i).objects[i]?).map (fun o2 => o2.actionId) =
      some (some sc.nextId) := by
  have hlen : i < sc.objects.length := (List.getElem?_eq_some.mp ho).1
  have hne : a ≠ sc.nextId := Nat.ne_of_lt hfresh
  have hshare : sharePhase sc i =
      { sc with
        actions := (sc.nextId, getFc sc a) :: sc.actions,
        nextId := sc.nextId + 1,
        objects := sc.objects.set i { o with actionId := some sc.nextId } } := by
    simp [sharePhase, ho, hd, ha, hu]
  have hget1 : (sharePhase sc i).objects[i]? =
      some { o with actionId := some sc.nextId } := by
    rw [hshare]
    exact List.getElem?_set_self hlen
  have hgetFc1 : getFc (sharePhase sc i) a = getFc sc a := by
    rw [hshare]
    simp [getFc, List.find?_cons, Ne.symm hne]
  have hclear : clearPhase (sharePhase sc i) i =
      setFc (sharePhase sc i) sc.nextId
        (removeForApply (getFc (sharePhase sc i) sc.nextId)) := by
    simp [clearPhase, hget1, hd]
  have hobj2 : (clearPhase (sharePhase sc i) i).objects[i]? =
      some { o with actionId := some sc.nextId } := by
    rw [hclear, setFc_objects]
    exact hget1
  have hgetFc2 : getFc (clearPhase (sharePhase sc i) i) a = getFc sc a := by
    rw [hclear, getFc_setFc_ne _ _ _ _ hne, hgetFc1]
  have hobjs2 : ∀ j, j ≠ i →
      (clearPhase (sharePhase sc i) i).objects[j]? = sc.objects[j]? := by
    intro j hj
    rw [hclear, setFc_objects, hshare]
    simp [List.getElem?_set_ne (Ne.symm hj)]
  unfold applyToObject
  by_cases heff : o.props.effectType = .noEffect
  · have heph : effectPhase (clearPhase (sharePhase sc i) i) i =
        clearPhase (sharePhase sc i) i := by
      simp [effectPhase, hobj2, heff]
    rw [heph]
    refine ⟨hgetFc2, hobjs2, ?_⟩
    rw [hobj2]
    rfl
  · have heph : effectPhase (clearPhase (sharePhase sc i) i) i =
        writePlanPhase (clearPhase (sharePhase sc i) i) i sc.nextId := by
      simp [effectPhase, hobj2, heff]
    rw [heph]
    refine ⟨?_, ?_, ?_⟩
    · rw [writePlanPhase_getFc_ne _ _ _ _ hne, hgetFc2]
    · intro j hj
      rw [writePlanPhase_objects_ne _ _ _ _ (Ne.symm hj), hobjs2 j hj]
    · rw [writePlanPhase_actionId, hobj2]
      rfl

/-- C5 witness: the theorem applied to the two-object scene sharing
action 0. -/
theorem apply_shared_action_isolated_witness :
    (c5Scene.objects[0]? = some c5Obj ∧ c5Obj.hasAnimData = true ∧
      c5Obj.actionId = some 0 ∧ 1 < usersCount c5Scene 0 ∧ 0 < c5Scene.nextId) ∧
    (getFc (applyToObject c5Scene 0) 0 = getFc c5Scene 0 ∧
     (∀ j, j ≠ 0 → (applyToObject c5Scene 0).objects[j]? = c5Scene.objects[j]?) ∧
     ((applyToObject c5Scene 0).objects[0]?).map (fun o2 => o2.actionId) =
       some (some c5Scene.nextId)) :=
  ⟨⟨rfl, rfl, rfl, by decide, by decide⟩,
   apply_shared_action_isolated c5Scene 0 c5Obj 0 rfl rfl rfl (by decide) (by decide)⟩

/-- C6: when the active object's configuration has `enabled = False`,
the apply operator warns, cancels, and returns the scene completely
unchanged — no object's configuration, transform, or animation track is
touched. -/
theorem apply_notEnabled_no_mutation (sc : Scene) (active : Nat)
    (sel : List Nat) (o : Obj) (ho : sc.objects[active]? = some o)
    (he : o.props.enabled = false) :
    executeApply sc active sel = (.notEnabled, sc) := by
  simp [executeApply, ho, he]

/-- C6 witness: the theorem applied to the one-object scene whose active
object is disabled. -/
theorem apply_notEnabled_no_mutation_witness :
    (c6Scene.objects[0]? = some c6Obj ∧ c6Obj.props.enabled = false) ∧
    executeApply c6Scene 0 [0] = (.notEnabled, c6Scene) :=
  ⟨⟨rfl, rfl⟩, apply_notEnabled_no_mutation c6Scene 0 [0] c6Obj rfl rfl⟩

/-- C7: for every start frame in [0, 1000] and duration in [1, 300], the
per-light visibility schedule has non-decreasing frame numbers, keeps
the light hidden at `startFrame` and at `endFrame - 1`, and shows it at
`endFrame`. -/
theorem hideChildLights_monotone (s d : ℤ)
    (hs0 : 0 ≤ s) (hs1 : s ≤ 1000) (hd0 : 1 ≤ d) (hd1 : d ≤ 300) :
    List.Chain' (fun a b => a ≤ b)
      ((hideChildLightPlan s (s + d)).map (fun en => en.frame)) ∧
    ⟨s, .hideViewport, .flag true, insertInterp⟩ ∈ hideChildLightPlan s (s + d) ∧
    ⟨s + d - 1, .hideViewport, .flag true, insertInterp⟩ ∈ hideChildLightPlan s (s + d) ∧
    ⟨s + d - 1, .hideRender, .flag true, insertInterp⟩ ∈ hideChildLightPlan s (s + d) ∧
    ⟨s + d, .hideViewport, .flag false, insertInterp⟩ ∈ hideChildLightPlan s (s + d) ∧
    ⟨s + d, .hideRender, .flag false, insertInterp⟩ ∈ hideChildLightPlan s (s + d) := by
  by_cases h0 : 0 < s <;>
    simp [hideChildLightPlan, h0, List.chain'_cons] <;>
    omega

/-- C7 witness: the theorem applied at start 10, duration 15. -/
theorem hideChildLights_monotone_witness :
    ((0 : ℤ) ≤ 10 ∧ (10 : ℤ) ≤ 1000 ∧ (1 : ℤ) ≤ 15 ∧ (15 : ℤ) ≤ 300) ∧
    (List.Chain' (fun a b => a ≤ b)
      ((hideChildLightPlan 10 (10 + 15)).map (fun en => en.frame)) ∧
    ⟨10, .hideViewport, .flag true, insertInterp⟩ ∈ hideChildLightPlan 10 (10 + 15) ∧
    ⟨10 + 15 - 1, .hideViewport, .flag true, insertInterp⟩ ∈ hideChildLightPlan 10 (10 + 15) ∧
    ⟨10 + 15 - 1, .hideRender, .flag true, insertInterp⟩ ∈ hideChildLightPlan 10 (10 + 15) ∧
    ⟨10 + 15, .hideViewport, .flag false, insertInterp⟩ ∈ hideChildLightPlan 10 (10 + 15) ∧
    ⟨10 + 15, .hideRender, .flag false, insertInterp⟩ ∈ hideChildLightPlan 10 (10 + 15)) :=
  ⟨⟨by decide, by decide, by decide, by decide⟩,
   hideChildLights_monotone 10 15 (by decide) (by decide) (by decide) (by decide)⟩

/-- C8: evaluating the clear operator at the failing input.  Clearing an
object whose timing fields differ from the declared defaults removes the
animation data, clears and unhides the light child, resets `enabled`
and `effect_type` — but leaves `start_frame = 50` and `duration = 40`
in place, although the defaults are 0 and 15; the spec requires all
AnimationParameters to be reset to defaults (and the code's own comment
says "Reset all properties to defaults").  A clear with nothing to
remove still finishes, with the non-fatal no-animation warning. -/
theorem clear_does_not_reset_timing_fields :
    ((executeClear c8Scene [0]).2.objects[0]?).map (fun o => o.props.startFrame) =
      some 50 ∧
    ((executeClear c8Scene [0]).2.objects[0]?).map (fun o => o.props.duration) =
      some 40 ∧
    defaultProps.startFrame = 0 ∧
    defaultProps.duration = 15 ∧
    (50 : ℤ) ≠ defaultProps.startFrame ∧
    ((executeClear c8Scene [0]).2.objects[0]?).map (fun o => o.hasAnimData) =
      some false ∧
    ((executeClear c8Scene [0]).2.objects[0]?).map (fun o => o.props.enabled) =
      some false ∧
    ((executeClear c8Scene [0]).2.objects[0]?).map (fun o => o.props.effectType) =
      some .noEffect ∧
    ((executeClear c8Scene [0]).2.objects[0]?).map
      (fun o => o.children.map fun c => (c.hasAnimData, c.hideViewport, c.hideRender)) =
      some [(false, false, false)] ∧
    (executeClear c8Scene [0]).1 = ⟨1, false⟩ ∧
    (executeClear c8SceneNoAnim [0]).1 = ⟨0, true⟩ := by
  decide

/-- C10: after a clear, every light child of a selected object that had
animation data ends up visible — both hide flags false — regardless of
its hide state before the clear. -/
theorem clear_lightChildren_visible (sc : Scene) (sel : List Nat)
    (i j : Nat) (o : Obj) (c : Child)
    (hi : i ∈ sel) (ho : sc.objects[i]? = some o)
    (hc : o.children[j]? = some c)
    (hk : c.kind = .light) (ha : c.hasAnimData = true) :
    ∃ o2 c2, (executeClear sc sel).2.objects[i]? = some o2 ∧
      o2.children[j]? = some c2 ∧
      c2.hideViewport = false ∧ c2.hideRender = false := by
  refine ⟨clearObject o, clearChild c, ?_, ?_, ?_, ?_⟩
  · show (mapSelected sel clearObject 0 sc.objects)[i]? = some (clearObject o)
    rw [mapSelected_getElem?, ho]
    simp [hi]
  · simp [clearObject, List.getElem?_map, hc]
  · simp [clearChild, hk, ha]
  · simp [clearChild, hk, ha]

/-- C10 witness: the theorem applied to the scene whose object carries a
hidden, animated light child. -/
theorem clear_lightChildren_visible_witness :
    (0 ∈ [0] ∧ c10Scene.objects[0]? = some c10Obj ∧
      c10Obj.children[0]? = some c10Child ∧
      c10Child.kind = .light ∧ c10Child.hasAnimData = true) ∧
    (∃ o2 c2, (executeClear c10Scene [0]).2.objects[0]? = some o2 ∧
      o2.children[0]? = some c2 ∧
      c2.hideViewport = false ∧ c2.hideRender = false) :=
  ⟨⟨by decide, rfl, rfl, rfl, rfl⟩,
   clear_lightChildren_visible c10Scene [0] 0 0 c10Obj c10Child
     (by decide) rfl rfl rfl rfl⟩

/-- C9: the POINT-light branch places the light at the axis-aligned
bounding-box midpoint and sets the soft-shadow radius to the average
center-to-point distance floored at 0.1; for the four corners of a unit
square the radius equals the distance from the center to a corner
(`sqrt(1/2)`, above the floor). -/
theorem pointLight_center_radius :
    (∀ (p0 : Vec3R) (ps : List Vec3R),
      (pointLightSpec p0 ps).1 = bboxCenter p0 ps ∧
      (pointLightSpec p0 ps).2 = max (avgRadius p0 ps) (1 / 10)) ∧
    bboxCenter (0, 0, 0) [(1, 0, 0), (0, 1, 0), (1, 1, 0)] = (1 / 2, 1 / 2, 0) ∧
    (pointLightSpec (0, 0, 0) [(1, 0, 0), (0, 1, 0), (1, 1, 0)]).2 =
      vlen (vsubR (1, 1, 0) (bboxCenter (0, 0, 0) [(1, 0, 0), (0, 1, 0), (1, 1, 0)])) := by
  have hc : bboxCenter (0, 0, 0) [(1, 0, 0), (0, 1, 0), (1, 1, 0)] =
      ((1 : ℝ) / 2, (1 : ℝ) / 2, (0 : ℝ)) := by
    simp [bboxCenter, foldMin, foldMax]
  have hd : vlen (vsubR (1, 1, 0) ((1 : ℝ) / 2, (1 : ℝ) / 2, (0 : ℝ))) =
      Real.sqrt (1 / 2) := by
    simp [vlen, vsubR]
    norm_num
  have h110 : (1 / 10 : ℝ) ≤ Real.sqrt (1 / 2) := by
    rw [show (1 / 10 : ℝ) = Real.sqrt ((1 / 10) ^ 2) from
      (Real.sqrt_sq (by norm_num)).symm]
    exact Real.sqrt_le_sqrt (by norm_num)
  refine ⟨fun p0 ps => ⟨rfl, rfl⟩, hc, ?_⟩
  have havg : avgRadius (0, 0, 0) [(1, 0, 0), (0, 1, 0), (1, 1, 0)] =
      Real.sqrt (1 / 2) := by
    simp only [avgRadius, hc, List.map_cons, List.map_nil]
    simp [vlen, vsubR]
    rw [show ((1 : ℝ) - 2⁻¹) ^ 2 = (2 ^ 2)⁻¹ by norm_num]
    rw [show (((2 : ℝ) ^ 2)⁻¹ + (2 ^ 2)⁻¹ : ℝ) = 2⁻¹ by norm_num]
    rw [Real.sqrt_inv]
    ring
  simp only [pointLightSpec, havg, hc, hd]
  exact max_eq_left h110

end SceneBuildup
